import Mathlib

/-!
Verification development for the ClawSocial compliance and delivery core:
the rate limiter / warm-up caps, the timing jitter generator, the retry
orchestrator of the CLI, and the notification dispatch surrounding it.

Definitions are shallow embeddings of the TypeScript sources:
  - `src/utils/config.ts`   (environment-derived configuration tables)
  - `src/cli.ts`            (parseContext, parseRetries, withRetry,
                             sendNotificationWithContext, action commands)
  - `src/graphql/instagram.ts` (InstagramHandler.like rate-limit gate)
Components whose source is not in the repository snapshot (the rate limiter
proper, the notifier delivery internals, the jitter generators) are modelled
from the specification and marked as such in their doc comments.
-/

namespace ClawSocial

/-! ## Platforms and action types (src/types/index.ts) -/

inductive Platform
  | instagram
  | twitter
  | linkedin
deriving DecidableEq, Repr

inductive ActionType
  | like
  | comment
  | follow
  | dm
  | post
  | connect
deriving DecidableEq, Repr

/-! ## JS numeric parsing

`parseInt(s, 10)` from JavaScript: an optional sign followed by the longest
leading run of decimal digits; `none` models the `NaN` result. -/

def digitsPrefix : List Char → List Char
  | [] => []
  | c :: cs => if c.isDigit then c :: digitsPrefix cs else []

def digitsVal (ds : List Char) : Nat :=
  ds.foldl (fun a c => 10 * a + (c.toNat - 48)) 0

/-- JavaScript `parseInt(s, 10)`: optional sign then longest digit prefix;
`none` models `NaN` (no leading digits). -/
def jsParseInt (s : String) : Option Int :=
  match s.data with
  | [] => none
  | '-' :: cs =>
      if digitsPrefix cs = [] then none
      else some (-(digitsVal (digitsPrefix cs) : Int))
  | '+' :: cs =>
      if digitsPrefix cs = [] then none
      else some ((digitsVal (digitsPrefix cs) : Int))
  | cs =>
      if digitsPrefix cs = [] then none
      else some ((digitsVal (digitsPrefix cs) : Int))

/-! ## CLI retry option parsing (src/cli.ts) -/

/-- Default retry attempt count (cli.ts `DEFAULT_RETRIES`). -/
def DEFAULT_RETRIES : Nat := 3

/-- Fixed delay between retry attempts in milliseconds (cli.ts `RETRY_DELAY_MS`). -/
def RETRY_DELAY_MS : Nat := 5000

/-- cli.ts `parseRetries`: missing or empty option (JS falsy string) yields the
default; a `NaN` parse yields the default; otherwise the parsed value clamped
to 1..10 via `Math.max(1, Math.min(n, 10))`. -/
def parseRetries (retriesStr : Option String) : Int :=
  match retriesStr with
  | none => (DEFAULT_RETRIES : Int)
  | some s =>
      if s = "" then (DEFAULT_RETRIES : Int)
      else
        match jsParseInt s with
        | none => (DEFAULT_RETRIES : Int)
        | some n => max 1 (min n 10)

/-! ## Environment-derived configuration (src/utils/config.ts)

The environment is modelled as a partial map from variable names to string
values; `none` is an unset variable. -/

abbrev Env : Type := String → Option String

/-- config.ts `getEnvNumber`: unset variable or `NaN` parse falls back to the
default value. -/
def getEnvNumber (env : Env) (key : String) (defaultValue : Int) : Int :=
  match env key with
  | none => defaultValue
  | some v =>
      match jsParseInt v with
      | none => defaultValue
      | some n => n

/-- The `rateLimits` table of config.ts `loadConfig`, keyed by platform and
action type.  Note that the linkedin `follow` entry reads
`RATE_LIMIT_LINKEDIN_CONNECT` (default 15), the same variable as `connect`,
and that instagram and twitter have `connect: 0`. -/
def rateLimitConfig (env : Env) : Platform → ActionType → Int
  | Platform.instagram, ActionType.like => getEnvNumber env "RATE_LIMIT_INSTAGRAM_LIKE" 100
  | Platform.instagram, ActionType.comment => getEnvNumber env "RATE_LIMIT_INSTAGRAM_COMMENT" 30
  | Platform.instagram, ActionType.follow => getEnvNumber env "RATE_LIMIT_INSTAGRAM_FOLLOW" 50
  | Platform.instagram, ActionType.dm => getEnvNumber env "RATE_LIMIT_INSTAGRAM_DM" 50
  | Platform.instagram, ActionType.post => getEnvNumber env "RATE_LIMIT_INSTAGRAM_POST" 10
  | Platform.instagram, ActionType.connect => 0
  | Platform.twitter, ActionType.like => getEnvNumber env "RATE_LIMIT_TWITTER_LIKE" 100
  | Platform.twitter, ActionType.comment => getEnvNumber env "RATE_LIMIT_TWITTER_COMMENT" 50
  | Platform.twitter, ActionType.follow => getEnvNumber env "RATE_LIMIT_TWITTER_FOLLOW" 50
  | Platform.twitter, ActionType.dm => getEnvNumber env "RATE_LIMIT_TWITTER_DM" 20
  | Platform.twitter, ActionType.post => getEnvNumber env "RATE_LIMIT_TWITTER_POST" 10
  | Platform.twitter, ActionType.connect => 0
  | Platform.linkedin, ActionType.like => getEnvNumber env "RATE_LIMIT_LINKEDIN_LIKE" 100
  | Platform.linkedin, ActionType.comment => getEnvNumber env "RATE_LIMIT_LINKEDIN_COMMENT" 30
  | Platform.linkedin, ActionType.follow => getEnvNumber env "RATE_LIMIT_LINKEDIN_CONNECT" 15
  | Platform.linkedin, ActionType.dm => getEnvNumber env "RATE_LIMIT_LINKEDIN_MESSAGE" 40
  | Platform.linkedin, ActionType.post => getEnvNumber env "RATE_LIMIT_LINKEDIN_POST" 5
  | Platform.linkedin, ActionType.connect => getEnvNumber env "RATE_LIMIT_LINKEDIN_CONNECT" 15

/-- The environment with no configuration variables set: every entry of the
config tables resolves to its default. -/
def defaultEnv : Env := fun _ => none

/-- Modelled from the spec: the Warm-up Scheduler (`getLimitsForDay`, spec
section 4.1) is not part of the repository snapshot under src/.  The spec says
that from week 5 onward the fixed full-cap table applies instead of continued
exponential growth; in the source, the only cap table is the `rateLimits`
configuration of config.ts, whose defaults (including the linkedin hard
ceiling of 15/day on connection requests) therefore are the resolved full
caps.  This definition gives the resolved daily cap for week numbers >= 5
under the default configuration. -/
def resolvedFullCap (p : Platform) (a : ActionType) : Int :=
  rateLimitConfig defaultEnv p a

/-- The `delays` section of config.ts `loadConfig`. -/
structure DelayConfig where
  minMs : Int
  maxMs : Int
  typingMinMs : Int
  typingMaxMs : Int
deriving DecidableEq, Repr

/-- config.ts `delays`: micro-delay range defaults 1500..4000 ms, typing speed
defaults 30..100 ms per character. -/
def delayConfig (env : Env) : DelayConfig :=
  { minMs := getEnvNumber env "DELAY_MIN_MS" 1500
    maxMs := getEnvNumber env "DELAY_MAX_MS" 4000
    typingMinMs := getEnvNumber env "TYPING_SPEED_MIN_MS" 30
    typingMaxMs := getEnvNumber env "TYPING_SPEED_MAX_MS" 100 }

/-- Modelled from the spec: the Timing Jitter generator (spec section 4.3) is
not part of the repository snapshot under src/.  `generateMicroDelay` is "a
simple uniform draw" from the configured intra-action range with no repetition
constraint; the uniform draw over the inclusive range [minMs, maxMs] is
modelled as minMs plus the random source taken modulo the range width.  The
generator takes no previous-value state: its output depends only on the
current draw. -/
def generateMicroDelay (d : DelayConfig) (r : Nat) : Int :=
  d.minMs + ((r : Int) % (d.maxMs - d.minMs + 1))

/-- Modelled from the spec: `generateTypingDelay` (spec section 4.3), the
per-character typing delay, is a simple uniform draw from the configured
typing-speed range with no repetition constraint, modelled like
`generateMicroDelay`. -/
def generateTypingDelay (d : DelayConfig) (r : Nat) : Int :=
  d.typingMinMs + ((r : Int) % (d.typingMaxMs - d.typingMinMs + 1))

/-! ## Rate limiter (modelled from the spec)

The rate limiter source (src/utils/rate-limiter.ts) is not part of the
repository snapshot under src/; only its callers are (the platform handlers
call `checkAndRecordAction` before every action, and `recordAction` after a
verified success).  The definitions below are modelled from spec section 4.2.
Timestamps are milliseconds as `Nat`. -/

/-- Length of a quota window in milliseconds (one day).  The spec leaves the
window boundary definition open (section 9); the model uses a rolling window
starting at `windowStart`, which is all the claims need since they quantify
within a single window. -/
def WINDOW_MS : Nat := 86400000

/-- Modelled from the spec: the persisted `ActionQuota` record for one
(platform, actionType) key (spec section 3): actions taken in the current
window, the window start, and the time of the last allowed action. -/
structure Quota where
  count : Nat
  windowStart : Nat
  lastActionAt : Option Nat
deriving DecidableEq, Repr

/-- The decision returned by `checkAndRecordAction` (spec section 4.2):
allowed flag, remaining/total status, optional next availability time, and
an optional denial reason. -/
structure Decision where
  allowed : Bool
  remaining : Nat
  total : Nat
  nextAvailableAt : Option Nat
  reason : Option String
deriving DecidableEq, Repr

/-- Window-boundary handling (spec section 4.2 step 3): when `now` has
crossed the window boundary, the count resets to 0 and `windowStart`
advances. -/
def windowReset (now : Nat) (q : Quota) : Quota :=
  if q.windowStart + WINDOW_MS ≤ now then
    { count := 0, windowStart := now, lastActionAt := q.lastActionAt }
  else q

/-- Minimum-gap enforcement (spec section 4.2 step 4): when the last action
is more recent than the minimum gap, the time the gap elapses is returned. -/
def gapBlockedUntil (minGap now : Nat) (q : Quota) : Option Nat :=
  match q.lastActionAt with
  | some t => if now < t + minGap then some (t + minGap) else none
  | none => none

/-- Modelled from the spec: `checkAndRecordAction` (spec section 4.2) for one
(platform, actionType) key, with the effective daily cap `cap` and the
minimum gap `minGap` already resolved.  Steps: reset the window if the
boundary was crossed; deny with "minimum gap not met" if the last action is
too recent; deny with "daily cap reached" if the cap is exhausted; otherwise
allow, increment the count and set `lastActionAt`. -/
def checkAndRecordAction (cap minGap now : Nat) (q : Quota) : Decision × Quota :=
  match gapBlockedUntil minGap now (windowReset now q) with
  | some nextAt =>
      ({ allowed := false, remaining := cap - (windowReset now q).count, total := cap,
         nextAvailableAt := some nextAt, reason := some "minimum gap not met" },
       windowReset now q)
  | none =>
      if cap ≤ (windowReset now q).count then
        ({ allowed := false, remaining := 0, total := cap,
           nextAvailableAt := some ((windowReset now q).windowStart + WINDOW_MS),
           reason := some "daily cap reached" },
         windowReset now q)
      else
        ({ allowed := true, remaining := cap - ((windowReset now q).count + 1), total := cap,
           nextAvailableAt := none, reason := none },
         { count := (windowReset now q).count + 1,
           windowStart := (windowReset now q).windowStart,
           lastActionAt := some now })

/-- Modelled from the spec: `recordAction`, called by the platform handlers
after a verified success, is the post-action quota-persistence step of the
ordering in spec section 5 ("permission check, action attempt, quota
persistence, notification dispatch").  The check call has already incremented
the counter and set `lastActionAt` (spec section 4.2 step 6, "every allowed
call durably persists the updated quota before returning"), so persisting the
quota again leaves the logical record unchanged. -/
def recordAction (q : Quota) : Quota := q

/-- One operation against a (platform, actionType) quota record: a gate check
at some time, or the post-success persistence call. -/
inductive RLOp
  | check (now : Nat)
  | record
deriving DecidableEq, Repr

/-- Apply one rate-limiter operation to the quota record. -/
def applyOp (cap minGap : Nat) (q : Quota) : RLOp → Quota
  | RLOp.check now => (checkAndRecordAction cap minGap now q).2
  | RLOp.record => recordAction q

/-- Run a sequence of rate-limiter operations. -/
def runOps (cap minGap : Nat) (ops : List RLOp) (q : Quota) : Quota :=
  ops.foldl (applyOp cap minGap) q

/-! ## Notification payloads and CLI events (src/cli.ts)

Context objects (the parsed `--context` JSON object and the `details` field
of a payload) are modelled as association lists of string fields. -/

/-- An open mapping of template-specific fields. -/
abbrev Ctx : Type := List (String × String)

/-- The `NotificationPayload` value built by cli.ts
`sendNotificationWithContext` and `notify report` (src/types/index.ts). -/
structure NotificationPayload where
  event : String
  platform : Platform
  action : ActionType
  success : Bool
  target : String
  error : Option String
  details : Ctx
  timestamp : Nat
deriving DecidableEq, Repr

/-- JavaScript object spread `\x7b ...base, ...ctx \x7d`: fields of `ctx`
override equal-named fields of `base`; all fields of `ctx` are present in the
result. -/
def mergeDetails (base ctx : Ctx) : Ctx :=
  base.filter (fun kv => ! ctx.any (fun c => c.1 == kv.1)) ++ ctx

/-- Observable events of one CLI action command invocation, in program order:
console lines, the silent-flag assignment, unit-of-work executions, the fixed
inter-attempt delay, notification dispatches, shutdown and the error exit. -/
inductive Ev
  | errLine (msg : String)
  | okLine (msg : String)
  | silentSet
  | clawInit
  | exec (attempt : Nat)
  | attemptFail (attempt total : Nat) (err : String)
  | delay (ms : Nat)
  | notifySent (p : NotificationPayload)
  | shutdown
  | exitOne
deriving DecidableEq, Repr

/-! ## Retry orchestrator (cli.ts `withRetry`)

`withRetry` runs the unit of work for attempts 1..retries; a failure before
the final attempt logs the attempt number and error and waits
`RETRY_DELAY_MS`; a failure of the final attempt propagates the last error.
The unit of work is modelled by the outcome of each attempt,
`uow : Nat → Except String α` (1-indexed); the trace records one `Ev.exec`
per invocation and one `Ev.attemptFail` (standing for the three console.log
lines) plus one `Ev.delay` per failed non-final attempt. -/

def withRetryGo {α : Type} (uow : Nat → Except String α) (total : Nat) :
    Nat → Nat → Except String α × List Ev
  | 0, _ => (Except.error "undefined", [])
  | fuel + 1, attempt =>
      match uow attempt with
      | Except.ok v => (Except.ok v, [Ev.exec attempt])
      | Except.error e =>
          match fuel with
          | 0 => (Except.error e, [Ev.exec attempt])
          | _ + 1 =>
              let r := withRetryGo uow total fuel (attempt + 1)
              (r.1, Ev.exec attempt :: Ev.attemptFail attempt total e ::
                    Ev.delay RETRY_DELAY_MS :: r.2)

/-- cli.ts `withRetry` with `retries` attempts: the final result together
with the trace of executions, failed-attempt log lines and delays.  With
`retries = 0` the source loop body never runs and the undefined last error is
thrown; `parseRetries` guarantees `retries >= 1` at every call site. -/
def withRetry {α : Type} (uow : Nat → Except String α) (retries : Nat) :
    Except String α × List Ev :=
  withRetryGo uow retries retries 1

/-! ## Event counting helpers -/

def isExec : Ev → Bool
  | Ev.exec _ => true
  | _ => false

def isAttemptFail : Ev → Bool
  | Ev.attemptFail _ _ _ => true
  | _ => false

def isDelayEv : Ev → Bool
  | Ev.delay _ => true
  | _ => false

def isNotify : Ev → Bool
  | Ev.notifySent _ => true
  | _ => false

def isErrorNotify : Ev → Bool
  | Ev.notifySent p => p.event == "action:error"
  | _ => false

def countExec (es : List Ev) : Nat := es.countP (fun e => isExec e)

def countAttemptFail (es : List Ev) : Nat := es.countP (fun e => isAttemptFail e)

def countDelay (es : List Ev) : Nat := es.countP (fun e => isDelayEv e)

def countNotify (es : List Ev) : Nat := es.countP (fun e => isNotify e)

def countErrorNotify (es : List Ev) : Nat := es.countP (fun e => isErrorNotify e)

/-! ## Instagram like handler (src/graphql/instagram.ts `InstagramHandler.like`)

The handler asks the rate limiter for permission first; a denial returns an
error result with message "Rate limit exceeded" before any navigation or
click happens.  The browser/DOM outcomes (whether the post was already liked,
whether the like button was found, whether the like was verified) are
external inputs to the control flow. -/

/-- The success flag and error message of an `ActionResult`
(src/types/index.ts); `createResult` yields success, `createErrorResult`
yields failure with the given message. -/
structure ActionResult where
  success : Bool
  error : Option String
deriving DecidableEq, Repr

/-- External browser observations driving the branches of
`InstagramHandler.like`. -/
structure IgPage where
  alreadyLiked : Bool
  likeButtonFound : Bool
  likeVerified : Bool
deriving DecidableEq, Repr

/-- Platform side effects performed by `InstagramHandler.like`: navigation,
warm-up scrolling, the like click, and the post-success `recordAction` call. -/
inductive IgEffect
  | navigate (url : String)
  | warmUpScroll
  | clickLike
  | recordActionCall
deriving DecidableEq, Repr

/-- instagram.ts `InstagramHandler.like`: the rate-limit gate is checked
before anything else; when denied, an error result with "Rate limit exceeded"
is returned and no side effect occurs.  Otherwise the handler navigates,
warms up, and either finds the post already liked, fails to find the like
button, or clicks and verifies (calling `recordAction` on verified success). -/
def instagramLike (allowed : Bool) (page : IgPage) (url : String) :
    ActionResult × List IgEffect :=
  if ! allowed then
    ({ success := false, error := some "Rate limit exceeded" }, [])
  else
    let pre : List IgEffect :=
      [IgEffect.navigate "https://www.instagram.com/", IgEffect.warmUpScroll,
       IgEffect.navigate url]
    if page.alreadyLiked then
      ({ success := true, error := none }, pre)
    else if ! page.likeButtonFound then
      ({ success := false, error := some "Like button not found" }, pre)
    else if page.likeVerified then
      ({ success := true, error := none },
       pre ++ [IgEffect.clickLike, IgEffect.recordActionCall])
    else
      ({ success := false, error := some "Like action failed" },
       pre ++ [IgEffect.clickLike])

/-! ## CLI action commands (src/cli.ts)

The commands `ig like`, `ig follow`, `ig comment`, `x like`, `x follow` and
`linkedin connect` all follow the same structure: parse `--retries` and
`--context`; when a context was parsed, set the process-wide
`CLAWSOCIAL_SILENT` flag to '1'; initialize; run the platform action under
`withRetry`, where the unit of work throws the result's error when the
action result is unsuccessful; on success log a success line and, when a
context was parsed, send one notification with the command's base details
merged with the context; on final failure log a failure line and, when a
context was parsed, send one error notification carrying the context, then
exit with code 1.  A `CmdSpec` holds the per-command constants. -/

/-- Raw state of the `--context` option: absent, present but rejected by
`JSON.parse`, or present and parsed into an object with the given fields
(`JSON.parse` itself is a JavaScript builtin, external to the repository). -/
inductive CtxArg
  | absent
  | malformed (raw : String)
  | valid (fields : Ctx)

/-- cli.ts `parseContext`: an absent option yields no context; a `JSON.parse`
failure logs "Invalid --context JSON" on stderr and yields no context (the
command then continues); a parsed object yields its fields. -/
def parseContext : CtxArg → List Ev × Option Ctx
  | CtxArg.absent => ([], none)
  | CtxArg.malformed _ => ([Ev.errLine "Invalid --context JSON"], none)
  | CtxArg.valid f => ([], some f)

/-- cli.ts `sendNotificationWithContext`: returns without any event when the
notifier is disabled; otherwise builds the payload (event `action:complete`
on success, `action:error` on failure) and dispatches it.  The notifier's
delivery internals (src/utils/notifier.ts) are not part of the repository
snapshot; modelled from the spec (section 4.5), `notifier.notify` dispatches
the payload to the configured channels, recorded as one `Ev.notifySent`. -/
def sendNotificationWithContext (enabled : Bool) (p : Platform) (a : ActionType)
    (success : Bool) (target : String) (context : Ctx) (error : Option String)
    (now : Nat) : List Ev :=
  if ! enabled then []
  else
    [Ev.notifySent
      { event := if success then "action:complete" else "action:error"
        platform := p, action := a, success := success, target := target
        error := error, details := context, timestamp := now }]

/-- Per-command constants of one CLI action command.  `failLine` renders the
final console failure line from the attempt count and the error message. -/
structure CmdSpec where
  platform : Platform
  action : ActionType
  target : String
  baseDetails : Ctx
  fallbackError : String
  successLine : String
  failLine : Nat → String → String

/-- The message thrown for an unsuccessful action result: its error, or the
command's fallback message when the error is absent or the empty string
(JS `res.error || fallback`). -/
def errOf (res : ActionResult) (fallback : String) : String :=
  match res.error with
  | some e => if e = "" then fallback else e
  | none => fallback

/-- The unit of work the CLI wraps in `withRetry`: run the platform action
and throw the `errOf` message when the result is unsuccessful.  `handler i`
is the action result of the i-th invocation. -/
def handlerUow (handler : Nat → ActionResult) (fallback : String) (i : Nat) :
    Except String ActionResult :=
  let res := handler i
  if res.success then Except.ok res
  else Except.error (errOf res fallback)

/-- Events after `withRetry` returns: the success branch logs and notifies
(with merged details) then shuts down; the catch branch logs the failure,
notifies with the bare context and the error message, shuts down and exits 1. -/
def actionTail (cmd : CmdSpec) (retries : Nat) (context : Option Ctx)
    (enabled : Bool) (now : Nat) : Except String ActionResult → List Ev
  | Except.ok _ =>
      Ev.okLine cmd.successLine ::
        ((match context with
          | some c =>
              sendNotificationWithContext enabled cmd.platform cmd.action true
                cmd.target (mergeDetails cmd.baseDetails c) none now
          | none => []) ++ [Ev.shutdown])
  | Except.error e =>
      Ev.errLine (cmd.failLine retries e) ::
        ((match context with
          | some c =>
              sendNotificationWithContext enabled cmd.platform cmd.action false
                cmd.target c (some e) now
          | none => []) ++ [Ev.shutdown, Ev.exitOne])

/-- One CLI action command invocation (the shared structure of `ig like`,
`ig follow`, `ig comment`, `x like`, `x follow`, `linkedin connect`):
the event trace in program order.  `claw.initialize()` and
`claw.shutdown()` are browser-layer steps external to the core and modelled
as always completing. -/
def runActionCommand (cmd : CmdSpec) (ctxArg : CtxArg) (retriesOpt : Option String)
    (enabled : Bool) (handler : Nat → ActionResult) (now : Nat) : List Ev :=
  let retries := (parseRetries retriesOpt).toNat
  let pc := parseContext ctxArg
  let rt := withRetry (handlerUow handler cmd.fallbackError) retries
  pc.1 ++ (if (pc.2).isSome then [Ev.silentSet] else []) ++ [Ev.clawInit] ++
    rt.2 ++ actionTail cmd retries pc.2 enabled now rt.1

/-- The `ig like <url>` command constants (cli.ts): success details merge
`postUrl` with the context; a missing error message falls back to
"Like failed". -/
def igLikeCmd (url : String) : CmdSpec :=
  { platform := Platform.instagram, action := ActionType.like, target := url
    baseDetails := [("postUrl", url)]
    fallbackError := "Like failed"
    successLine := "Liked post: " ++ url
    failLine := fun n e => "Failed to like after " ++ toString n ++ " attempts: " ++ e }

/-- The `ig follow <username>` command constants (cli.ts). -/
def igFollowCmd (username : String) : CmdSpec :=
  { platform := Platform.instagram, action := ActionType.follow, target := username
    baseDetails := [("profileUrl", "https://instagram.com/" ++ username)]
    fallbackError := "Follow failed"
    successLine := "Followed: @" ++ username
    failLine := fun n e =>
      "Failed to follow @" ++ username ++ " after " ++ toString n ++ " attempts: " ++ e }

/-- The `ig comment <url> <text>` command constants (cli.ts). -/
def igCommentCmd (url text : String) : CmdSpec :=
  { platform := Platform.instagram, action := ActionType.comment, target := url
    baseDetails := [("postUrl", url), ("commentText", text)]
    fallbackError := "Comment failed"
    successLine := "Commented on: " ++ url
    failLine := fun n e => "Failed to comment after " ++ toString n ++ " attempts: " ++ e }

/-- The `x like <url>` command constants (cli.ts). -/
def xLikeCmd (url : String) : CmdSpec :=
  { platform := Platform.twitter, action := ActionType.like, target := url
    baseDetails := [("postUrl", url)]
    fallbackError := "Like failed"
    successLine := "Liked tweet: " ++ url
    failLine := fun n e => "Failed to like after " ++ toString n ++ " attempts: " ++ e }

/-- The `x follow <username>` command constants (cli.ts), after username
extraction from a URL argument. -/
def xFollowCmd (username : String) : CmdSpec :=
  { platform := Platform.twitter, action := ActionType.follow, target := username
    baseDetails := [("profileUrl", "https://x.com/" ++ username)]
    fallbackError := "Follow failed"
    successLine := "Followed: @" ++ username
    failLine := fun n e =>
      "Failed to follow @" ++ username ++ " after " ++ toString n ++ " attempts: " ++ e }

/-- The `linkedin connect <url>` command constants (cli.ts); the optional
note joins the success details before the context is spread over them. -/
def linkedinConnectCmd (url : String) (note : Option String) : CmdSpec :=
  { platform := Platform.linkedin, action := ActionType.connect, target := url
    baseDetails :=
      ("profileUrl", url) :: (match note with | some nt => [("note", nt)] | none => [])
    fallbackError := "Connect failed"
    successLine := "Sent connection request to: " ++ url
    failLine := fun n e => "Failed to connect after " ++ toString n ++ " attempts: " ++ e }

/-- cli.ts `notify report`: exits 1 when notifications are disabled; a
`JSON.parse` failure of `--context` logs "Invalid JSON in --context" and
exits 1 before any dispatch; otherwise one payload (success unless `--error`
was given, details from the parsed context or empty) is dispatched. -/
def runNotifyReport (enabled : Bool) (p : Platform) (a : ActionType)
    (target : String) (ctxArg : CtxArg) (errorOpt : Option String)
    (now : Nat) : List Ev :=
  if ! enabled then [Ev.errLine "Notifications disabled", Ev.exitOne]
  else
    match ctxArg with
    | CtxArg.malformed _ => [Ev.errLine "Invalid JSON in --context", Ev.exitOne]
    | CtxArg.absent =>
        [Ev.notifySent
          { event := if errorOpt.isNone then "action:complete" else "action:error"
            platform := p, action := a, success := errorOpt.isNone, target := target
            error := errorOpt, details := [], timestamp := now },
         Ev.okLine "report sent"]
    | CtxArg.valid f =>
        [Ev.notifySent
          { event := if errorOpt.isNone then "action:complete" else "action:error"
            platform := p, action := a, success := errorOpt.isNone, target := target
            error := errorOpt, details := f, timestamp := now },
         Ev.okLine "report sent"]

/-! # Theorems -/

/-! ## Retry option parsing (claim C7) -/

theorem parseRetries_mem_range (s? : Option String) :
    1 ≤ parseRetries s? ∧ parseRetries s? ≤ 10 := by
  unfold parseRetries
  cases s? with
  | none => constructor <;> norm_num [DEFAULT_RETRIES]
  | some s =>
      by_cases hs : s = ""
      · simp only [hs, if_pos rfl]
        constructor <;> norm_num [DEFAULT_RETRIES]
      · simp only [hs, if_neg, if_false]
        cases h : jsParseInt s with
        | none => constructor <;> norm_num [DEFAULT_RETRIES]
        | some n =>
            refine ⟨le_max_left 1 _, max_le (by norm_num) (min_le_right n 10)⟩

/-- C7: for every value of the `--retries` option the resolved attempt count
lies in 1..10; an absent option resolves to the default 3; a value that
`parseInt` rejects (NaN) resolves to the default 3. -/
theorem parseRetries_clamped (s? : Option String) :
    (1 ≤ parseRetries s? ∧ parseRetries s? ≤ 10)
    ∧ (s? = none → parseRetries s? = 3)
    ∧ (∀ s, s? = some s → jsParseInt s = none → parseRetries s? = 3) := by
  refine ⟨parseRetries_mem_range s?, ?_, ?_⟩
  · rintro rfl
    rfl
  · rintro s rfl h
    unfold parseRetries
    by_cases hs : s = "" <;> simp [hs, h, DEFAULT_RETRIES]

/-- Witness for C7 at concrete inputs: the NaN string "abc" and the absent
option resolve to 3, and "99" resolves inside 1..10 (to 10 after clamping). -/
theorem parseRetries_clamped_witness :
    parseRetries (some "abc") = 3 ∧ parseRetries none = 3
    ∧ 1 ≤ parseRetries (some "99") ∧ parseRetries (some "99") ≤ 10 :=
  ⟨(parseRetries_clamped (some "abc")).2.2 "abc" rfl (by decide),
   (parseRetries_clamped none).2.1 rfl,
   (parseRetries_clamped (some "99")).1.1,
   (parseRetries_clamped (some "99")).1.2⟩

/-! ## Full-cap table (claim C4) -/

/-- C4 counterexample: under the default configuration the twitter daily
comment cap resolves to 50, not the 30/day of the claimed uniform
(100, 30, 50, 50) full-cap table, so the full caps are not the same for
every platform. -/
theorem fullCap_twitter_comment_is_50 :
    resolvedFullCap Platform.twitter ActionType.comment = 50
    ∧ resolvedFullCap Platform.twitter ActionType.comment ≠ 30 := by
  constructor <;> decide

/-- C4 (amended): the resolved full caps are per-platform: instagram matches
the (100, 30, 50, 50) table for like/comment/follow/dm; twitter resolves
comments to 50/day and DMs to 20/day; linkedin resolves DMs to 40/day; and
the linkedin hard ceiling of 15/day applies to connection requests (and to
the follow entry, which reads the same configuration variable), taking
precedence over the generic 50/day follow-type cap. -/
theorem resolvedFullCap_table :
    (resolvedFullCap Platform.instagram ActionType.like = 100
      ∧ resolvedFullCap Platform.instagram ActionType.comment = 30
      ∧ resolvedFullCap Platform.instagram ActionType.follow = 50
      ∧ resolvedFullCap Platform.instagram ActionType.dm = 50)
    ∧ (resolvedFullCap Platform.twitter ActionType.like = 100
      ∧ resolvedFullCap Platform.twitter ActionType.comment = 50
      ∧ resolvedFullCap Platform.twitter ActionType.follow = 50
      ∧ resolvedFullCap Platform.twitter ActionType.dm = 20)
    ∧ (resolvedFullCap Platform.linkedin ActionType.like = 100
      ∧ resolvedFullCap Platform.linkedin ActionType.comment = 30
      ∧ resolvedFullCap Platform.linkedin ActionType.dm = 40)
    ∧ resolvedFullCap Platform.linkedin ActionType.connect = 15
    ∧ resolvedFullCap Platform.linkedin ActionType.follow = 15 := by
  decide

/-! ## Timing jitter ranges (claim C9) -/

/-- C9: every `generateMicroDelay` value lies in the default 1500..4000 ms
intra-action range and every `generateTypingDelay` value lies in the default
30..100 ms per-character range; neither generator carries a non-repetition
constraint (its output depends only on the current draw, and distinct draws
can repeat a value). -/
theorem micro_and_typing_delays_in_range (r : Nat) :
    (1500 ≤ generateMicroDelay (delayConfig defaultEnv) r
      ∧ generateMicroDelay (delayConfig defaultEnv) r ≤ 4000)
    ∧ (30 ≤ generateTypingDelay (delayConfig defaultEnv) r
      ∧ generateTypingDelay (delayConfig defaultEnv) r ≤ 100)
    ∧ generateMicroDelay (delayConfig defaultEnv) 0
        = generateMicroDelay (delayConfig defaultEnv) 2501
    ∧ generateTypingDelay (delayConfig defaultEnv) 0
        = generateTypingDelay (delayConfig defaultEnv) 71 := by
  refine ⟨⟨?_, ?_⟩, ⟨?_, ?_⟩, by decide, by decide⟩ <;>
    · simp only [generateMicroDelay, generateTypingDelay, delayConfig, defaultEnv,
        getEnvNumber]
      norm_num
      omega

/-! ## Rate limiter invariants (claim C1) -/

theorem windowReset_count_le {cap : Nat} (now : Nat) (q : Quota)
    (h : q.count ≤ cap) : (windowReset now q).count ≤ cap := by
  unfold windowReset
  split
  · exact Nat.zero_le cap
  · exact h

theorem windowReset_of_in_window (now : Nat) (q : Quota)
    (h : now < q.windowStart + WINDOW_MS) : windowReset now q = q := by
  unfold windowReset
  rw [if_neg]
  omega

theorem check_count_le (cap minGap now : Nat) (q : Quota) (h : q.count ≤ cap) :
    ((checkAndRecordAction cap minGap now q).2).count ≤ cap := by
  have h1 : (windowReset now q).count ≤ cap := windowReset_count_le now q h
  unfold checkAndRecordAction
  cases hg : gapBlockedUntil minGap now (windowReset now q) with
  | some t => simpa using h1
  | none =>
      by_cases hc : cap ≤ (windowReset now q).count
      · simp only [if_pos hc]
        simpa using h1
      · simp only [if_neg hc]
        simp only [not_le] at hc
        simpa using hc

theorem runOps_count_le (cap minGap : Nat) (ops : List RLOp) (q : Quota)
    (h : q.count ≤ cap) : (runOps cap minGap ops q).count ≤ cap := by
  induction ops generalizing q with
  | nil => exact h
  | cons op rest ih =>
      cases op with
      | check now =>
          exact ih (checkAndRecordAction cap minGap now q).2
            (check_count_le cap minGap now q h)
      | record => exact ih q h

theorem check_denied_at_cap (cap minGap now : Nat) (q : Quota)
    (hwin : now < q.windowStart + WINDOW_MS) (hcap : cap ≤ q.count)
    (hgap : ∀ t, q.lastActionAt = some t → t + minGap ≤ now) :
    (checkAndRecordAction cap minGap now q).1.allowed = false
    ∧ (checkAndRecordAction cap minGap now q).1.reason = some "daily cap reached"
    ∧ (checkAndRecordAction cap minGap now q).2 = q := by
  have hw : windowReset now q = q := windowReset_of_in_window now q hwin
  have hg : gapBlockedUntil minGap now (windowReset now q) = none := by
    rw [hw]
    unfold gapBlockedUntil
    cases hl : q.lastActionAt with
    | none => rfl
    | some t =>
        have := hgap t hl
        show (if now < t + minGap then some (t + minGap) else none) = none
        rw [if_neg]
        omega
  unfold checkAndRecordAction
  rw [hg, hw, if_pos hcap]
  exact ⟨rfl, rfl, rfl⟩

theorem check_allowed_increments (cap minGap now : Nat) (q : Quota)
    (hwin : now < q.windowStart + WINDOW_MS)
    (hall : (checkAndRecordAction cap minGap now q).1.allowed = true) :
    ((checkAndRecordAction cap minGap now q).2).count = q.count + 1
    ∧ q.count < cap := by
  have hw : windowReset now q = q := windowReset_of_in_window now q hwin
  cases hg : gapBlockedUntil minGap now (windowReset now q) with
  | some t =>
      exfalso
      unfold checkAndRecordAction at hall
      rw [hg] at hall
      simp at hall
  | none =>
      by_cases hc : cap ≤ (windowReset now q).count
      · exfalso
        unfold checkAndRecordAction at hall
        rw [hg, if_pos hc] at hall
        simp at hall
      · unfold checkAndRecordAction
        rw [hg, if_neg hc]
        rw [hw] at hc
        simp only [not_le] at hc
        exact ⟨by simp [hw], hc⟩

/-- C1: the persisted quota count never exceeds the resolved daily limit.
Part 1: every sequence of rate-limiter operations (gate checks at arbitrary
times and post-success `recordAction` persistence calls) preserves
`count <= cap`.  Part 2: a check made within the window while the cap is
exhausted (and the minimum gap is satisfied, so that the cap is the active
rule) is denied with reason "daily cap reached" and leaves the quota
unchanged.  Part 3: every allowed in-window check increments the count by
exactly one and fires only below the cap, so after exactly `cap` allowed
calls in one window the count is `cap` and every further in-window call is
denied.  Part 4: the post-success `recordAction` persistence call leaves the
quota record unchanged, so no operation order can push the count past the
cap. -/
theorem quota_count_never_exceeds_cap (cap minGap now : Nat) (q : Quota)
    (ops : List RLOp) :
    (q.count ≤ cap → (runOps cap minGap ops q).count ≤ cap)
    ∧ (now < q.windowStart + WINDOW_MS → cap ≤ q.count →
        (∀ t, q.lastActionAt = some t → t + minGap ≤ now) →
        (checkAndRecordAction cap minGap now q).1.allowed = false
        ∧ (checkAndRecordAction cap minGap now q).1.reason = some "daily cap reached"
        ∧ (checkAndRecordAction cap minGap now q).2 = q)
    ∧ (now < q.windowStart + WINDOW_MS →
        (checkAndRecordAction cap minGap now q).1.allowed = true →
        ((checkAndRecordAction cap minGap now q).2).count = q.count + 1
        ∧ q.count < cap)
    ∧ recordAction q = q :=
  ⟨runOps_count_le cap minGap ops q,
   check_denied_at_cap cap minGap now q,
   check_allowed_increments cap minGap now q,
   rfl⟩

/-- Witness for C1 at cap 2 (spec scenario A): from a fresh quota, two checks
are allowed (count 1 then 2), a third in-window check is denied with reason
"daily cap reached", a trailing `recordAction` changes nothing, and the count
after the whole sequence is within the cap. -/
theorem quota_count_never_exceeds_cap_witness :
    (runOps 2 0 [RLOp.check 1, RLOp.check 2, RLOp.check 3, RLOp.record]
        { count := 0, windowStart := 0, lastActionAt := none }).count ≤ 2
    ∧ (checkAndRecordAction 2 0 3
        { count := 2, windowStart := 0, lastActionAt := some 2 }).1.reason
        = some "daily cap reached"
    ∧ ((checkAndRecordAction 2 0 1
        { count := 0, windowStart := 0, lastActionAt := none }).2).count = 0 + 1 := by
  refine ⟨?_, ?_, ?_⟩
  · exact (quota_count_never_exceeds_cap 2 0 3
      { count := 0, windowStart := 0, lastActionAt := none }
      [RLOp.check 1, RLOp.check 2, RLOp.check 3, RLOp.record]).1 (by decide)
  · exact ((quota_count_never_exceeds_cap 2 0 3
      { count := 2, windowStart := 0, lastActionAt := some 2 } []).2.1
      (by decide) (by decide)
      (fun t ht => by cases ht; decide)).2.1
  · exact ((quota_count_never_exceeds_cap 2 0 1
      { count := 0, windowStart := 0, lastActionAt := none } []).2.2.1
      (by decide) (by decide)).1

/-! ## Event predicate evaluation lemmas -/

@[simp] theorem isExec_errLine (s : String) : isExec (Ev.errLine s) = false := rfl

@[simp] theorem isExec_okLine (s : String) : isExec (Ev.okLine s) = false := rfl

@[simp] theorem isExec_silentSet : isExec Ev.silentSet = false := rfl

@[simp] theorem isExec_clawInit : isExec Ev.clawInit = false := rfl

@[simp] theorem isExec_exec (i : Nat) : isExec (Ev.exec i) = true := rfl

@[simp] theorem isExec_attemptFail (i t : Nat) (s : String) :
    isExec (Ev.attemptFail i t s) = false := rfl

@[simp] theorem isExec_delay (m : Nat) : isExec (Ev.delay m) = false := rfl

@[simp] theorem isExec_notifySent (p : NotificationPayload) :
    isExec (Ev.notifySent p) = false := rfl

@[simp] theorem isExec_shutdown : isExec Ev.shutdown = false := rfl

@[simp] theorem isExec_exitOne : isExec Ev.exitOne = false := rfl

@[simp] theorem isAttemptFail_errLine (s : String) : isAttemptFail (Ev.errLine s) = false := rfl

@[simp] theorem isAttemptFail_okLine (s : String) : isAttemptFail (Ev.okLine s) = false := rfl

@[simp] theorem isAttemptFail_silentSet : isAttemptFail Ev.silentSet = false := rfl

@[simp] theorem isAttemptFail_clawInit : isAttemptFail Ev.clawInit = false := rfl

@[simp] theorem isAttemptFail_exec (i : Nat) : isAttemptFail (Ev.exec i) = false := rfl

@[simp] theorem isAttemptFail_attemptFail (i t : Nat) (s : String) :
    isAttemptFail (Ev.attemptFail i t s) = true := rfl

@[simp] theorem isAttemptFail_delay (m : Nat) : isAttemptFail (Ev.delay m) = false := rfl

@[simp] theorem isAttemptFail_notifySent (p : NotificationPayload) :
    isAttemptFail (Ev.notifySent p) = false := rfl

@[simp] theorem isAttemptFail_shutdown : isAttemptFail Ev.shutdown = false := rfl

@[simp] theorem isAttemptFail_exitOne : isAttemptFail Ev.exitOne = false := rfl

@[simp] theorem isDelayEv_errLine (s : String) : isDelayEv (Ev.errLine s) = false := rfl

@[simp] theorem isDelayEv_okLine (s : String) : isDelayEv (Ev.okLine s) = false := rfl

@[simp] theorem isDelayEv_silentSet : isDelayEv Ev.silentSet = false := rfl

@[simp] theorem isDelayEv_clawInit : isDelayEv Ev.clawInit = false := rfl

@[simp] theorem isDelayEv_exec (i : Nat) : isDelayEv (Ev.exec i) = false := rfl

@[simp] theorem isDelayEv_attemptFail (i t : Nat) (s : String) :
    isDelayEv (Ev.attemptFail i t s) = false := rfl

@[simp] theorem isDelayEv_delay (m : Nat) : isDelayEv (Ev.delay m) = true := rfl

@[simp] theorem isDelayEv_notifySent (p : NotificationPayload) :
    isDelayEv (Ev.notifySent p) = false := rfl

@[simp] theorem isDelayEv_shutdown : isDelayEv Ev.shutdown = false := rfl

@[simp] theorem isDelayEv_exitOne : isDelayEv Ev.exitOne = false := rfl

@[simp] theorem isNotify_errLine (s : String) : isNotify (Ev.errLine s) = false := rfl

@[simp] theorem isNotify_okLine (s : String) : isNotify (Ev.okLine s) = false := rfl

@[simp] theorem isNotify_silentSet : isNotify Ev.silentSet = false := rfl

@[simp] theorem isNotify_clawInit : isNotify Ev.clawInit = false := rfl

@[simp] theorem isNotify_exec (i : Nat) : isNotify (Ev.exec i) = false := rfl

@[simp] theorem isNotify_attemptFail (i t : Nat) (s : String) :
    isNotify (Ev.attemptFail i t s) = false := rfl

@[simp] theorem isNotify_delay (m : Nat) : isNotify (Ev.delay m) = false := rfl

@[simp] theorem isNotify_notifySent (p : NotificationPayload) :
    isNotify (Ev.notifySent p) = true := rfl

@[simp] theorem isNotify_shutdown : isNotify Ev.shutdown = false := rfl

@[simp] theorem isNotify_exitOne : isNotify Ev.exitOne = false := rfl

@[simp] theorem isErrorNotify_errLine (s : String) : isErrorNotify (Ev.errLine s) = false := rfl

@[simp] theorem isErrorNotify_okLine (s : String) : isErrorNotify (Ev.okLine s) = false := rfl

@[simp] theorem isErrorNotify_silentSet : isErrorNotify Ev.silentSet = false := rfl

@[simp] theorem isErrorNotify_clawInit : isErrorNotify Ev.clawInit = false := rfl

@[simp] theorem isErrorNotify_exec (i : Nat) : isErrorNotify (Ev.exec i) = false := rfl

@[simp] theorem isErrorNotify_attemptFail (i t : Nat) (s : String) :
    isErrorNotify (Ev.attemptFail i t s) = false := rfl

@[simp] theorem isErrorNotify_delay (m : Nat) : isErrorNotify (Ev.delay m) = false := rfl

@[simp] theorem isErrorNotify_notifySent (p : NotificationPayload) :
    isErrorNotify (Ev.notifySent p) = (p.event == "action:error") := rfl

@[simp] theorem isErrorNotify_shutdown : isErrorNotify Ev.shutdown = false := rfl

@[simp] theorem isErrorNotify_exitOne : isErrorNotify Ev.exitOne = false := rfl

/-! ## Event counting over list structure -/

@[simp] theorem countExec_nil : countExec [] = 0 := rfl

@[simp] theorem countExec_cons (e : Ev) (l : List Ev) :
    countExec (e :: l) = (if isExec e then 1 else 0) + countExec l := by
  simp [countExec, List.countP_cons]
  omega

@[simp] theorem countExec_append (l1 l2 : List Ev) :
    countExec (l1 ++ l2) = countExec l1 + countExec l2 := by
  simp [countExec, List.countP_append]

@[simp] theorem countAttemptFail_nil : countAttemptFail [] = 0 := rfl

@[simp] theorem countAttemptFail_cons (e : Ev) (l : List Ev) :
    countAttemptFail (e :: l) = (if isAttemptFail e then 1 else 0) + countAttemptFail l := by
  simp [countAttemptFail, List.countP_cons]
  omega

@[simp] theorem countAttemptFail_append (l1 l2 : List Ev) :
    countAttemptFail (l1 ++ l2) = countAttemptFail l1 + countAttemptFail l2 := by
  simp [countAttemptFail, List.countP_append]

@[simp] theorem countDelay_nil : countDelay [] = 0 := rfl

@[simp] theorem countDelay_cons (e : Ev) (l : List Ev) :
    countDelay (e :: l) = (if isDelayEv e then 1 else 0) + countDelay l := by
  simp [countDelay, List.countP_cons]
  omega

@[simp] theorem countDelay_append (l1 l2 : List Ev) :
    countDelay (l1 ++ l2) = countDelay l1 + countDelay l2 := by
  simp [countDelay, List.countP_append]

@[simp] theorem countNotify_nil : countNotify [] = 0 := rfl

@[simp] theorem countNotify_cons (e : Ev) (l : List Ev) :
    countNotify (e :: l) = (if isNotify e then 1 else 0) + countNotify l := by
  simp [countNotify, List.countP_cons]
  omega

@[simp] theorem countNotify_append (l1 l2 : List Ev) :
    countNotify (l1 ++ l2) = countNotify l1 + countNotify l2 := by
  simp [countNotify, List.countP_append]

@[simp] theorem countErrorNotify_nil : countErrorNotify [] = 0 := rfl

@[simp] theorem countErrorNotify_cons (e : Ev) (l : List Ev) :
    countErrorNotify (e :: l) = (if isErrorNotify e then 1 else 0) + countErrorNotify l := by
  simp [countErrorNotify, List.countP_cons]
  omega

@[simp] theorem countErrorNotify_append (l1 l2 : List Ev) :
    countErrorNotify (l1 ++ l2) = countErrorNotify l1 + countErrorNotify l2 := by
  simp [countErrorNotify, List.countP_append]

/-! ## Retry orchestrator lemmas -/

theorem withRetryGo_shape {α : Type} (uow : Nat → Except String α)
    (total fuel attempt : Nat) :
    ∀ e ∈ (withRetryGo uow total fuel attempt).2,
      isExec e = true ∨ isAttemptFail e = true ∨ isDelayEv e = true := by
  induction fuel generalizing attempt with
  | zero =>
      intro e he
      simp [withRetryGo] at he
  | succ f ih =>
      intro e he
      unfold withRetryGo at he
      cases h : uow attempt with
      | ok v =>
          rw [h] at he
          simp at he
          subst he
          exact Or.inl rfl
      | error er =>
          rw [h] at he
          cases f with
          | zero =>
              simp at he
              subst he
              exact Or.inl rfl
          | succ f2 =>
              simp only [List.mem_cons] at he
              rcases he with rfl | rfl | rfl | he
              · exact Or.inl rfl
              · exact Or.inr (Or.inl rfl)
              · exact Or.inr (Or.inr rfl)
              · exact ih (attempt + 1) e he

theorem shape_not_notify {e : Ev}
    (h : isExec e = true ∨ isAttemptFail e = true ∨ isDelayEv e = true) :
    isNotify e = false ∧ isErrorNotify e = false ∧ e ≠ Ev.silentSet := by
  cases e <;>
    simp [isExec, isAttemptFail, isDelayEv, isNotify, isErrorNotify] at h ⊢

theorem withRetryGo_no_notify {α : Type} (uow : Nat → Except String α)
    (total fuel attempt : Nat) :
    countNotify (withRetryGo uow total fuel attempt).2 = 0
    ∧ countErrorNotify (withRetryGo uow total fuel attempt).2 = 0
    ∧ Ev.silentSet ∉ (withRetryGo uow total fuel attempt).2 := by
  refine ⟨?_, ?_, ?_⟩
  · rw [countNotify, List.countP_eq_zero]
    intro e he
    simp [(shape_not_notify (withRetryGo_shape uow total fuel attempt e he)).1]
  · rw [countErrorNotify, List.countP_eq_zero]
    intro e he
    simp [(shape_not_notify (withRetryGo_shape uow total fuel attempt e he)).2.1]
  · intro he
    exact (shape_not_notify (withRetryGo_shape uow total fuel attempt _ he)).2.2 rfl

theorem withRetryGo_exec_le {α : Type} (uow : Nat → Except String α)
    (total fuel attempt : Nat) :
    countExec (withRetryGo uow total fuel attempt).2 ≤ fuel := by
  induction fuel generalizing attempt with
  | zero => simp [withRetryGo]
  | succ f ih =>
      unfold withRetryGo
      cases h : uow attempt with
      | ok v => simp
      | error er =>
          cases f with
          | zero => simp
          | succ f2 =>
              have hr := ih (attempt + 1)
              simp
              omega

theorem withRetryGo_allFail {α : Type} (uow : Nat → Except String α)
    (e : Nat → String) (hf : ∀ i, uow i = Except.error (e i)) (total : Nat) :
    ∀ fuel attempt, 1 ≤ fuel →
      (withRetryGo uow total fuel attempt).1 = Except.error (e (attempt + fuel - 1))
      ∧ countExec (withRetryGo uow total fuel attempt).2 = fuel
      ∧ countAttemptFail (withRetryGo uow total fuel attempt).2 = fuel - 1
      ∧ ∀ i, attempt ≤ i → i + 1 < attempt + fuel →
          Ev.attemptFail i total (e i) ∈ (withRetryGo uow total fuel attempt).2 := by
  intro fuel
  induction fuel with
  | zero =>
      intro attempt h
      omega
  | succ f ih =>
      intro attempt _
      unfold withRetryGo
      rw [hf attempt]
      cases f with
      | zero =>
          refine ⟨?_, ?_, ?_, ?_⟩
          · simp
          · simp
          · simp
          · intro i h1 h2
            omega
      | succ f2 =>
          obtain ⟨ih1, ih2, ih3, ih4⟩ := ih (attempt + 1) (by omega)
          refine ⟨?_, ?_, ?_, ?_⟩
          · have harith : attempt + 1 + (f2 + 1) - 1 = attempt + (f2 + 1 + 1) - 1 := by
              omega
            rw [harith] at ih1
            simpa using ih1
          · simp
            omega
          · simp
            omega
          · intro i h1 h2
            by_cases hi : i = attempt
            · subst hi
              simp
            · have hmem := ih4 i (by omega) (by omega)
              simp [List.mem_cons]
              tauto

theorem withRetryGo_delay_const {α : Type} (uow : Nat → Except String α)
    (total fuel attempt : Nat) :
    (∀ m, Ev.delay m ∈ (withRetryGo uow total fuel attempt).2 → m = RETRY_DELAY_MS)
    ∧ countDelay (withRetryGo uow total fuel attempt).2
        = countAttemptFail (withRetryGo uow total fuel attempt).2 := by
  induction fuel generalizing attempt with
  | zero => simp [withRetryGo]
  | succ f ih =>
      unfold withRetryGo
      cases h : uow attempt with
      | ok v => simp
      | error er =>
          cases f with
          | zero => simp
          | succ f2 =>
              obtain ⟨ihm, ihc⟩ := ih (attempt + 1)
              constructor
              · intro m hm
                simp only [List.mem_cons] at hm
                rcases hm with h1 | h1 | h1 | h1
                · exact absurd h1 (by simp)
                · exact absurd h1 (by simp)
                · simpa using h1
                · exact ihm m h1
              · simp
                omega

/-! ## Retry exhaustion (claim C3) -/

/-- C3: `withRetry` invokes the unit of work at most `maxAttempts` times; an
always-failing unit of work is invoked exactly `maxAttempts` times and the
error of the final attempt is propagated to the caller; a unit of work that
fails on attempts 1 and 2 and succeeds on attempt 3, run with 3 attempts,
returns the success result and produces exactly 2 failed-attempt log lines. -/
theorem withRetry_attempt_bounds :
    (∀ (α : Type) (uow : Nat → Except String α) (n : Nat),
        countExec (withRetry uow n).2 ≤ n)
    ∧ (∀ (α : Type) (uow : Nat → Except String α) (e : Nat → String) (n : Nat),
        1 ≤ n → (∀ i, uow i = Except.error (e i)) →
        countExec (withRetry uow n).2 = n
        ∧ (withRetry uow n).1 = Except.error (e n))
    ∧ (∀ (α : Type) (uow : Nat → Except String α) (e1 e2 : String) (v : α),
        uow 1 = Except.error e1 → uow 2 = Except.error e2 → uow 3 = Except.ok v →
        (withRetry uow 3).1 = Except.ok v
        ∧ countAttemptFail (withRetry uow 3).2 = 2
        ∧ countExec (withRetry uow 3).2 = 3) := by
  refine ⟨?_, ?_, ?_⟩
  · intro α uow n
    exact withRetryGo_exec_le uow n n 1
  · intro α uow e n hn hf
    obtain ⟨h1, h2, _, _⟩ := withRetryGo_allFail uow e hf n n 1 hn
    refine ⟨h2, ?_⟩
    have harith : 1 + n - 1 = n := by omega
    rw [harith] at h1
    exact h1
  · intro α uow e1 e2 v h1 h2 h3
    have hcalc : withRetry uow 3 =
        (Except.ok v,
         [Ev.exec 1, Ev.attemptFail 1 3 e1, Ev.delay RETRY_DELAY_MS,
          Ev.exec 2, Ev.attemptFail 2 3 e2, Ev.delay RETRY_DELAY_MS, Ev.exec 3]) := by
      show withRetryGo uow 3 (2 + 1) 1 = _
      unfold withRetryGo
      rw [h1]
      show (_, Ev.exec 1 :: Ev.attemptFail 1 3 e1 :: Ev.delay RETRY_DELAY_MS ::
        (withRetryGo uow 3 (1 + 1) 2).2) = _
      unfold withRetryGo
      rw [h2]
      show (_, _ :: _ :: _ :: Ev.exec 2 :: Ev.attemptFail 2 3 e2 ::
        Ev.delay RETRY_DELAY_MS :: (withRetryGo uow 3 (0 + 1) 3).2) = _
      unfold withRetryGo
      rw [h3]
    rw [hcalc]
    refine ⟨rfl, ?_, ?_⟩ <;> simp

/-- Witness for C3: with 3 attempts, a unit of work failing on every attempt
is invoked 3 times and the third error is propagated; one failing on attempts
1 and 2 only returns the success value with exactly 2 failed-attempt lines. -/
theorem withRetry_attempt_bounds_witness :
    countExec (withRetry (fun i => (Except.error (toString i) : Except String Nat)) 3).2 = 3
    ∧ (withRetry (fun i => (Except.error (toString i) : Except String Nat)) 3).1
        = Except.error (toString 3)
    ∧ (withRetry (fun i =>
          if i ≤ 2 then Except.error (toString i) else Except.ok (7 : Nat)) 3).1
        = Except.ok 7
    ∧ countAttemptFail (withRetry (fun i =>
          if i ≤ 2 then Except.error (toString i) else Except.ok (7 : Nat)) 3).2 = 2 := by
  refine ⟨?_, ?_, ?_, ?_⟩
  · exact (withRetry_attempt_bounds.2.1 Nat _ (fun i => toString i) 3
      (by norm_num) (fun i => rfl)).1
  · exact (withRetry_attempt_bounds.2.1 Nat _ (fun i => toString i) 3
      (by norm_num) (fun i => rfl)).2
  · exact (withRetry_attempt_bounds.2.2 Nat _ (toString 1) (toString 2) 7
      rfl rfl rfl).1
  · exact (withRetry_attempt_bounds.2.2 Nat _ (toString 1) (toString 2) 7
      rfl rfl rfl).2.1

/-! ## Fixed retry delay (claim C8) -/

/-- C8 counterexample: the inter-attempt delay is not caller-configurable —
no unit of work, attempt count or trace position yields a delay other than
the hard-coded 5000 ms module constant (cli.ts `withRetry` options carry only
retries, actionName and target; there is no `fixedDelayMs` field). -/
theorem no_configurable_retry_delay :
    ¬ ∃ (uow : Nat → Except String ActionResult) (n m : Nat),
        Ev.delay m ∈ (withRetry uow n).2 ∧ m ≠ 5000 := by
  rintro ⟨uow, n, m, hm, hne⟩
  exact hne (by simpa [RETRY_DELAY_MS] using (withRetryGo_delay_const uow n n 1).1 m hm)

/-- C8 (amended): the inter-attempt delay is the hard-coded module constant
`RETRY_DELAY_MS` = 5000 ms, not a caller-configurable option; it is constant
across all attempts of one `withRetry` invocation, and no delay is inserted
after the final failed attempt: delays accompany exactly the logged non-final
failed attempts, so an always-failing unit of work with n attempts waits
exactly n - 1 times. -/
theorem retry_delay_fixed_5000 (uow : Nat → Except String ActionResult) (n : Nat)
    (e : Nat → String) :
    RETRY_DELAY_MS = 5000
    ∧ (∀ m, Ev.delay m ∈ (withRetry uow n).2 → m = 5000)
    ∧ countDelay (withRetry uow n).2 = countAttemptFail (withRetry uow n).2
    ∧ (1 ≤ n → (∀ i, uow i = Except.error (e i)) →
        countDelay (withRetry uow n).2 = n - 1) := by
  refine ⟨rfl, ?_, (withRetryGo_delay_const uow n n 1).2, ?_⟩
  · intro m hm
    simpa [RETRY_DELAY_MS] using (withRetryGo_delay_const uow n n 1).1 m hm
  · intro hn hf
    unfold withRetry
    rw [(withRetryGo_delay_const uow n n 1).2]
    exact (withRetryGo_allFail uow e hf n n 1 hn).2.2.1

/-- Witness for C8: an always-failing unit of work run with 3 attempts waits
exactly 2 times, and every recorded delay is 5000 ms. -/
theorem retry_delay_fixed_5000_witness :
    countDelay (withRetry
      (fun i => (Except.error (toString i) : Except String ActionResult)) 3).2 = 2 := by
  have h := (retry_delay_fixed_5000
    (fun i => (Except.error (toString i) : Except String ActionResult)) 3
    (fun i => toString i)).2.2.2 (by norm_num) (fun i => rfl)
  simpa using h

/-! ## CLI action command flow lemmas -/

theorem runActionCommand_eq (cmd : CmdSpec) (ctxArg : CtxArg)
    (retriesOpt : Option String) (enabled : Bool) (handler : Nat → ActionResult)
    (now : Nat) :
    runActionCommand cmd ctxArg retriesOpt enabled handler now
      = (parseContext ctxArg).1
        ++ (if ((parseContext ctxArg).2).isSome then [Ev.silentSet] else [])
        ++ [Ev.clawInit]
        ++ (withRetry (handlerUow handler cmd.fallbackError)
              (parseRetries retriesOpt).toNat).2
        ++ actionTail cmd (parseRetries retriesOpt).toNat (parseContext ctxArg).2
             enabled now
             (withRetry (handlerUow handler cmd.fallbackError)
               (parseRetries retriesOpt).toNat).1 := by
  unfold runActionCommand
  simp

theorem actionTail_shape (cmd : CmdSpec) (retries : Nat) (context : Option Ctx)
    (enabled : Bool) (now : Nat) (r : Except String ActionResult) :
    ∀ e ∈ actionTail cmd retries context enabled now r,
      isExec e = false ∧ isAttemptFail e = false ∧ isDelayEv e = false
      ∧ e ≠ Ev.silentSet := by
  intro e he
  cases r with
  | ok v =>
      cases context with
      | none =>
          simp [actionTail] at he
          rcases he with rfl | rfl <;> exact ⟨rfl, rfl, rfl, by simp⟩
      | some c =>
          cases enabled with
          | false =>
              simp [actionTail, sendNotificationWithContext] at he
              rcases he with rfl | rfl <;> exact ⟨rfl, rfl, rfl, by simp⟩
          | true =>
              simp [actionTail, sendNotificationWithContext] at he
              rcases he with rfl | rfl | rfl <;> exact ⟨rfl, rfl, rfl, by simp⟩
  | error er =>
      cases context with
      | none =>
          simp [actionTail] at he
          rcases he with rfl | rfl | rfl <;> exact ⟨rfl, rfl, rfl, by simp⟩
      | some c =>
          cases enabled with
          | false =>
              simp [actionTail, sendNotificationWithContext] at he
              rcases he with rfl | rfl | rfl <;> exact ⟨rfl, rfl, rfl, by simp⟩
          | true =>
              simp [actionTail, sendNotificationWithContext] at he
              rcases he with rfl | rfl | rfl | rfl <;> exact ⟨rfl, rfl, rfl, by simp⟩

theorem countNotify_actionTail_none (cmd : CmdSpec) (retries : Nat) (enabled : Bool)
    (now : Nat) (r : Except String ActionResult) :
    countNotify (actionTail cmd retries none enabled now r) = 0 := by
  cases r <;> simp [actionTail]

theorem countNotify_actionTail_disabled (cmd : CmdSpec) (retries : Nat)
    (context : Option Ctx) (now : Nat) (r : Except String ActionResult) :
    countNotify (actionTail cmd retries context false now r) = 0 := by
  cases r <;> cases context <;> simp [actionTail, sendNotificationWithContext]

theorem countNotify_actionTail_some (cmd : CmdSpec) (retries : Nat) (c : Ctx)
    (now : Nat) (r : Except String ActionResult) :
    countNotify (actionTail cmd retries (some c) true now r) = 1 := by
  cases r <;> simp [actionTail, sendNotificationWithContext]

theorem countErrorNotify_actionTail_le_one (cmd : CmdSpec) (retries : Nat)
    (context : Option Ctx) (enabled : Bool) (now : Nat)
    (r : Except String ActionResult) :
    countErrorNotify (actionTail cmd retries context enabled now r) ≤ 1 := by
  cases r <;> cases context <;> cases enabled <;>
    simp [actionTail, sendNotificationWithContext]

theorem countErrorNotify_actionTail_error (cmd : CmdSpec) (retries : Nat) (c : Ctx)
    (now : Nat) (er : String) :
    countErrorNotify (actionTail cmd retries (some c) true now (Except.error er)) = 1 := by
  simp [actionTail, sendNotificationWithContext]

theorem countExec_actionTail (cmd : CmdSpec) (retries : Nat) (context : Option Ctx)
    (enabled : Bool) (now : Nat) (r : Except String ActionResult) :
    countExec (actionTail cmd retries context enabled now r) = 0
    ∧ countAttemptFail (actionTail cmd retries context enabled now r) = 0
    ∧ Ev.silentSet ∉ actionTail cmd retries context enabled now r := by
  refine ⟨?_, ?_, ?_⟩
  · rw [countExec, List.countP_eq_zero]
    intro e he
    simp [(actionTail_shape cmd retries context enabled now r e he).1]
  · rw [countAttemptFail, List.countP_eq_zero]
    intro e he
    simp [(actionTail_shape cmd retries context enabled now r e he).2.1]
  · intro he
    exact (actionTail_shape cmd retries context enabled now r _ he).2.2.2 rfl

theorem parseContext_counts (ctxArg : CtxArg) :
    countExec (parseContext ctxArg).1 = 0
    ∧ countAttemptFail (parseContext ctxArg).1 = 0
    ∧ countNotify (parseContext ctxArg).1 = 0
    ∧ countErrorNotify (parseContext ctxArg).1 = 0
    ∧ Ev.silentSet ∉ (parseContext ctxArg).1 := by
  cases ctxArg <;> simp [parseContext]

theorem runActionCommand_counts (cmd : CmdSpec) (ctxArg : CtxArg)
    (retriesOpt : Option String) (enabled : Bool) (handler : Nat → ActionResult)
    (now : Nat) :
    countExec (runActionCommand cmd ctxArg retriesOpt enabled handler now)
      = countExec (withRetry (handlerUow handler cmd.fallbackError)
          (parseRetries retriesOpt).toNat).2
    ∧ countAttemptFail (runActionCommand cmd ctxArg retriesOpt enabled handler now)
      = countAttemptFail (withRetry (handlerUow handler cmd.fallbackError)
          (parseRetries retriesOpt).toNat).2
    ∧ countNotify (runActionCommand cmd ctxArg retriesOpt enabled handler now)
      = countNotify (actionTail cmd (parseRetries retriesOpt).toNat
          (parseContext ctxArg).2 enabled now
          (withRetry (handlerUow handler cmd.fallbackError)
            (parseRetries retriesOpt).toNat).1)
    ∧ countErrorNotify (runActionCommand cmd ctxArg retriesOpt enabled handler now)
      = countErrorNotify (actionTail cmd (parseRetries retriesOpt).toNat
          (parseContext ctxArg).2 enabled now
          (withRetry (handlerUow handler cmd.fallbackError)
            (parseRetries retriesOpt).toNat).1) := by
  obtain ⟨p1, p2, p3, p4, _⟩ := parseContext_counts ctxArg
  obtain ⟨t1, t2, _⟩ := countExec_actionTail cmd (parseRetries retriesOpt).toNat
    (parseContext ctxArg).2 enabled now
    (withRetry (handlerUow handler cmd.fallbackError) (parseRetries retriesOpt).toNat).1
  obtain ⟨r1, r2, _⟩ := withRetryGo_no_notify (handlerUow handler cmd.fallbackError)
    (parseRetries retriesOpt).toNat (parseRetries retriesOpt).toNat 1
  rw [runActionCommand_eq]
  refine ⟨?_, ?_, ?_, ?_⟩ <;>
    · simp only [countExec_append, countAttemptFail_append, countNotify_append,
        countErrorNotify_append, p1, p2, p3, p4, t1, t2]
      split <;>
        simp_all [withRetry, countExec, countAttemptFail, countNotify, countErrorNotify]

/-! ## Rate-limit denial handling (claim C2) -/

/-- C2 counterexample: with the default 3 retry attempts and a persistently
rate-limited like, the CLI unit of work is executed 3 times — the denied
action IS re-executed by the retry wrapper instead of failing fast after the
first denial. -/
theorem rate_limit_denial_retried_counterexample :
    1 < countExec (runActionCommand (igLikeCmd "https://instagram.com/p/x")
      CtxArg.absent none false
      (fun _ => { success := false, error := some "Rate limit exceeded" }) 0) := by
  decide

/-- C2 (amended): a rate-limit denial is produced before any platform side
effect and is surfaced immediately with success=false and the message
"Rate limit exceeded", and every denial decision of the rate limiter carries
a reason and a nextAvailableAt; however the CLI retry wrapper does not treat
the denial as non-retryable: a persistently denied action is re-executed on
every one of the resolved retry attempts (at least one, each execution again
producing no side effect), after which the failure is surfaced. -/
theorem rate_limit_denial_behavior (page : IgPage) (url : String)
    (cap minGap now : Nat) (q : Quota) (cmd : CmdSpec) (ctxArg : CtxArg)
    (retriesOpt : Option String) (enabled : Bool) (tnow : Nat) :
    ((instagramLike false page url).2 = []
      ∧ (instagramLike false page url).1.success = false
      ∧ (instagramLike false page url).1.error = some "Rate limit exceeded")
    ∧ ((checkAndRecordAction cap minGap now q).1.allowed = false →
        (checkAndRecordAction cap minGap now q).1.reason ≠ none
        ∧ (checkAndRecordAction cap minGap now q).1.nextAvailableAt ≠ none)
    ∧ countExec (runActionCommand cmd ctxArg retriesOpt enabled
          (fun _ => (instagramLike false page url).1) tnow)
        = (parseRetries retriesOpt).toNat
    ∧ 1 ≤ (parseRetries retriesOpt).toNat := by
  have hbounds := parseRetries_mem_range retriesOpt
  have hn : 1 ≤ (parseRetries retriesOpt).toNat := by omega
  refine ⟨⟨rfl, rfl, rfl⟩, ?_, ?_, hn⟩
  · intro hall
    cases hg : gapBlockedUntil minGap now (windowReset now q) with
    | some t =>
        unfold checkAndRecordAction
        rw [hg]
        exact ⟨by simp, by simp⟩
    | none =>
        by_cases hc : cap ≤ (windowReset now q).count
        · unfold checkAndRecordAction
          rw [hg, if_pos hc]
          exact ⟨by simp, by simp⟩
        · exfalso
          unfold checkAndRecordAction at hall
          rw [hg, if_neg hc] at hall
          simp at hall
  · have hf : ∀ i, handlerUow (fun _ => (instagramLike false page url).1)
        cmd.fallbackError i = Except.error "Rate limit exceeded" := fun i => rfl
    rw [(runActionCommand_counts cmd ctxArg retriesOpt enabled _ tnow).1]
    exact (withRetryGo_allFail _ (fun _ => "Rate limit exceeded") hf
      (parseRetries retriesOpt).toNat (parseRetries retriesOpt).toNat 1 hn).2.1

/-- Witness for C2 at concrete inputs: a denied check carries a
nextAvailableAt, and a persistently denied follow with `--retries=2` is
executed exactly twice. -/
theorem rate_limit_denial_behavior_witness :
    (checkAndRecordAction 0 0 5
        { count := 0, windowStart := 0, lastActionAt := none }).1.nextAvailableAt ≠ none
    ∧ countExec (runActionCommand (igFollowCmd "bob") (CtxArg.valid [("a", "b")])
        (some "2") true
        (fun _ => { success := false, error := some "Rate limit exceeded" }) 7) = 2 := by
  constructor
  · exact ((rate_limit_denial_behavior ⟨false, false, false⟩ "u" 0 0 5
      { count := 0, windowStart := 0, lastActionAt := none } (igFollowCmd "bob")
      (CtxArg.valid [("a", "b")]) (some "2") true 7).2.1 (by decide)).2
  · exact (rate_limit_denial_behavior ⟨false, false, false⟩ "u" 0 0 5
      { count := 0, windowStart := 0, lastActionAt := none } (igFollowCmd "bob")
      (CtxArg.valid [("a", "b")]) (some "2") true 7).2.2.1

/-! ## Malformed context handling (claim C5) -/

/-- C5 counterexample: with a malformed `--context` value, the `ig like`
command still proceeds to execute the action — the malformed JSON is
reported on stderr but is not fatal for action commands, contradicting "the
command does not proceed with the action". -/
theorem malformed_context_not_fatal_counterexample :
    Ev.exec 1 ∈ runActionCommand (igLikeCmd "https://instagram.com/p/x")
      (CtxArg.malformed "not-json") none true
      (fun _ => { success := true, error := none }) 0 := by
  decide

/-- C5 (amended): for `notify report`, a malformed `--context` is fatal —
the command logs "Invalid JSON in --context" and exits 1 before any dispatch.
For the action commands, a malformed `--context` is reported on stderr and
then treated exactly as an absent context: the action still runs, no
notification is dispatched, and the silent flag is left unchanged. -/
theorem malformed_context_behavior (p : Platform) (a : ActionType)
    (target raw : String) (err : Option String) (now : Nat) (cmd : CmdSpec)
    (retriesOpt : Option String) (enabled : Bool) (handler : Nat → ActionResult) :
    (runNotifyReport true p a target (CtxArg.malformed raw) err now
        = [Ev.errLine "Invalid JSON in --context", Ev.exitOne]
      ∧ countNotify (runNotifyReport true p a target (CtxArg.malformed raw) err now) = 0)
    ∧ runActionCommand cmd (CtxArg.malformed raw) retriesOpt enabled handler now
        = Ev.errLine "Invalid --context JSON"
            :: runActionCommand cmd CtxArg.absent retriesOpt enabled handler now
    ∧ countNotify (runActionCommand cmd (CtxArg.malformed raw) retriesOpt enabled
        handler now) = 0
    ∧ Ev.silentSet ∉ runActionCommand cmd (CtxArg.malformed raw) retriesOpt enabled
        handler now := by
  refine ⟨⟨rfl, by simp [runNotifyReport]⟩, rfl, ?_, ?_⟩
  · rw [(runActionCommand_counts cmd (CtxArg.malformed raw) retriesOpt enabled
      handler now).2.2.1]
    exact countNotify_actionTail_none cmd _ enabled now _
  · intro hmem
    rw [runActionCommand_eq] at hmem
    have h1 := (parseContext_counts (CtxArg.malformed raw)).2.2.2.2
    have h2 := (withRetryGo_no_notify (handlerUow handler cmd.fallbackError)
      (parseRetries retriesOpt).toNat (parseRetries retriesOpt).toNat 1).2.2
    have h3 := (countExec_actionTail cmd (parseRetries retriesOpt).toNat
      (parseContext (CtxArg.malformed raw)).2 enabled now
      (withRetry (handlerUow handler cmd.fallbackError)
        (parseRetries retriesOpt).toNat).1).2.2
    simp only [List.mem_append] at hmem
    rcases hmem with (((h | h) | h) | h) | h
    · exact h1 h
    · simp [parseContext] at h
    · simp at h
    · exact h2 h
    · exact h3 h

/-! ## Error notification timing (claim C6) -/

theorem parseContext_notify_shape (ctxArg : CtxArg) :
    ∀ e ∈ (parseContext ctxArg).1, isNotify e = false := by
  cases ctxArg <;> simp [parseContext]

/-- C6: during a retried action an error notification is dispatched at most
once; the trace splits into a prefix holding every execution and
failed-attempt line and a suffix holding every notification — so no
notification ever follows an individual failed attempt, only the completed
retry loop; and when every attempt fails (with a context present and the
notifier enabled), exactly one error notification is dispatched, there are
exactly retries - 1 failed-attempt console lines, and every non-final
attempt i produces its "Attempt i/retries failed" line carrying that
attempt's error. -/
theorem error_notification_only_after_exhaustion (cmd : CmdSpec) (ctxArg : CtxArg)
    (retriesOpt : Option String) (enabled : Bool) (handler : Nat → ActionResult)
    (now : Nat) (c : Ctx) :
    countErrorNotify (runActionCommand cmd ctxArg retriesOpt enabled handler now) ≤ 1
    ∧ (∃ pre post,
        runActionCommand cmd ctxArg retriesOpt enabled handler now = pre ++ post
        ∧ (∀ e ∈ pre, isNotify e = false)
        ∧ (∀ e ∈ post, isExec e = false ∧ isAttemptFail e = false))
    ∧ (ctxArg = CtxArg.valid c → enabled = true →
        (∀ i, (handler i).success = false) →
        countErrorNotify (runActionCommand cmd ctxArg retriesOpt enabled handler now) = 1
        ∧ countAttemptFail (runActionCommand cmd ctxArg retriesOpt enabled handler now)
            = (parseRetries retriesOpt).toNat - 1
        ∧ (∀ i, 1 ≤ i → i < (parseRetries retriesOpt).toNat →
            Ev.attemptFail i (parseRetries retriesOpt).toNat
                (errOf (handler i) cmd.fallbackError)
              ∈ runActionCommand cmd ctxArg retriesOpt enabled handler now)) := by
  refine ⟨?_, ?_, ?_⟩
  · rw [(runActionCommand_counts cmd ctxArg retriesOpt enabled handler now).2.2.2]
    exact countErrorNotify_actionTail_le_one cmd _ _ enabled now _
  · refine ⟨((parseContext ctxArg).1
        ++ (if ((parseContext ctxArg).2).isSome then [Ev.silentSet] else [])
        ++ [Ev.clawInit]
        ++ (withRetry (handlerUow handler cmd.fallbackError)
            (parseRetries retriesOpt).toNat).2),
      actionTail cmd (parseRetries retriesOpt).toNat (parseContext ctxArg).2
        enabled now
        (withRetry (handlerUow handler cmd.fallbackError)
          (parseRetries retriesOpt).toNat).1,
      runActionCommand_eq cmd ctxArg retriesOpt enabled handler now, ?_, ?_⟩
    · intro e he
      simp only [List.mem_append] at he
      rcases he with ((h | h) | h) | h
      · exact parseContext_notify_shape ctxArg e h
      · split at h
        · simp at h
          subst h
          rfl
        · simp at h
      · simp at h
        subst h
        rfl
      · exact (shape_not_notify (withRetryGo_shape _ _ _ _ e h)).1
    · intro e he
      exact ⟨(actionTail_shape cmd _ _ enabled now _ e he).1,
        (actionTail_shape cmd _ _ enabled now _ e he).2.1⟩
  · rintro rfl rfl hfail
    have hbounds := parseRetries_mem_range retriesOpt
    have hn : 1 ≤ (parseRetries retriesOpt).toNat := by omega
    have hf : ∀ i, handlerUow handler cmd.fallbackError i
        = Except.error (errOf (handler i) cmd.fallbackError) := by
      intro i
      unfold handlerUow
      simp [hfail i]
    obtain ⟨a1, a2, a3, a4⟩ := withRetryGo_allFail (handlerUow handler cmd.fallbackError)
      (fun i => errOf (handler i) cmd.fallbackError) hf
      (parseRetries retriesOpt).toNat (parseRetries retriesOpt).toNat 1 hn
    refine ⟨?_, ?_, ?_⟩
    · rw [(runActionCommand_counts cmd (CtxArg.valid c) retriesOpt true handler
        now).2.2.2]
      have hres : (withRetry (handlerUow handler cmd.fallbackError)
          (parseRetries retriesOpt).toNat).1
          = Except.error (errOf
              (handler (1 + (parseRetries retriesOpt).toNat - 1))
              cmd.fallbackError) := a1
      rw [hres]
      exact countErrorNotify_actionTail_error cmd _ c now _
    · rw [(runActionCommand_counts cmd (CtxArg.valid c) retriesOpt true handler
        now).2.1]
      exact a3
    · intro i h1 h2
      rw [runActionCommand_eq]
      exact List.mem_append_left _ (List.mem_append_right _ (a4 i h1 (by omega)))

/-- Witness for C6: a like that fails on every attempt (error "E") with a
context and the notifier enabled, under the default 3 attempts, dispatches
exactly one error notification, logs 2 failed-attempt lines, and logs the
"Attempt 1/3 failed" line with error "E". -/
theorem error_notification_only_after_exhaustion_witness :
    countErrorNotify (runActionCommand (igLikeCmd "u") (CtxArg.valid [("author", "a")])
        none true (fun _ => { success := false, error := some "E" }) 0) = 1
    ∧ countAttemptFail (runActionCommand (igLikeCmd "u") (CtxArg.valid [("author", "a")])
        none true (fun _ => { success := false, error := some "E" }) 0) = 2
    ∧ Ev.attemptFail 1 3 "E" ∈ runActionCommand (igLikeCmd "u")
        (CtxArg.valid [("author", "a")]) none true
        (fun _ => { success := false, error := some "E" }) 0 := by
  obtain ⟨h1, h2, h3⟩ := (error_notification_only_after_exhaustion (igLikeCmd "u")
    (CtxArg.valid [("author", "a")]) none true
    (fun _ => { success := false, error := some "E" }) 0 [("author", "a")]).2.2 rfl rfl
    (fun i => rfl)
  exact ⟨h1, h2, h3 1 (by norm_num) (by decide)⟩

/-! ## Context-driven notification flow (claim C10) -/

/-- C10: for a CLI action command taking `--context`: with a valid context,
the silent flag is set first — before initialize and any execution; when the
notifier is enabled, exactly one notification is dispatched, its payload
details contain every context field, it comes after every execution, and its
event is action:complete (success path) or action:error (retries-exhausted
path); when the notifier is disabled, none is dispatched; with an absent
context, no notification is dispatched and the silent flag is never set. -/
theorem context_notification_flow (cmd : CmdSpec) (c : Ctx)
    (retriesOpt : Option String) (enabled : Bool) (handler : Nat → ActionResult)
    (now : Nat) :
    (∃ rest, runActionCommand cmd (CtxArg.valid c) retriesOpt enabled handler now
        = Ev.silentSet :: Ev.clawInit :: rest)
    ∧ (enabled = true →
        countNotify (runActionCommand cmd (CtxArg.valid c) retriesOpt enabled
          handler now) = 1
        ∧ ∃ pre p post,
            runActionCommand cmd (CtxArg.valid c) retriesOpt enabled handler now
              = pre ++ Ev.notifySent p :: post
            ∧ (∀ kv ∈ c, kv ∈ p.details)
            ∧ (∀ e ∈ post, isExec e = false)
            ∧ (p.event = "action:complete" ∨ p.event = "action:error"))
    ∧ (enabled = false →
        countNotify (runActionCommand cmd (CtxArg.valid c) retriesOpt enabled
          handler now) = 0)
    ∧ countNotify (runActionCommand cmd CtxArg.absent retriesOpt enabled
        handler now) = 0
    ∧ Ev.silentSet ∉ runActionCommand cmd CtxArg.absent retriesOpt enabled
        handler now := by
  refine ⟨⟨(withRetry (handlerUow handler cmd.fallbackError)
        (parseRetries retriesOpt).toNat).2
      ++ actionTail cmd (parseRetries retriesOpt).toNat (some c) enabled now
          (withRetry (handlerUow handler cmd.fallbackError)
            (parseRetries retriesOpt).toNat).1, rfl⟩, ?_, ?_, ?_, ?_⟩
  · rintro rfl
    constructor
    · rw [(runActionCommand_counts cmd (CtxArg.valid c) retriesOpt true handler
        now).2.2.1]
      exact countNotify_actionTail_some cmd _ c now _
    · cases hres : (withRetry (handlerUow handler cmd.fallbackError)
        (parseRetries retriesOpt).toNat).1 with
      | ok v =>
          refine ⟨Ev.silentSet :: Ev.clawInit ::
              ((withRetry (handlerUow handler cmd.fallbackError)
                (parseRetries retriesOpt).toNat).2 ++ [Ev.okLine cmd.successLine]),
            { event := "action:complete", platform := cmd.platform,
              action := cmd.action, success := true, target := cmd.target,
              error := none, details := mergeDetails cmd.baseDetails c,
              timestamp := now },
            [Ev.shutdown], ?_, ?_, ?_, Or.inl rfl⟩
          · rw [runActionCommand_eq, hres]
            simp [parseContext, actionTail, sendNotificationWithContext]
          · intro kv hkv
            exact List.mem_append_right _ hkv
          · intro e he
            simp at he
            subst he
            rfl
      | error er =>
          refine ⟨Ev.silentSet :: Ev.clawInit ::
              ((withRetry (handlerUow handler cmd.fallbackError)
                (parseRetries retriesOpt).toNat).2
                ++ [Ev.errLine (cmd.failLine (parseRetries retriesOpt).toNat er)]),
            { event := "action:error", platform := cmd.platform,
              action := cmd.action, success := false, target := cmd.target,
              error := some er, details := c, timestamp := now },
            [Ev.shutdown, Ev.exitOne], ?_, ?_, ?_, Or.inr rfl⟩
          · rw [runActionCommand_eq, hres]
            simp [parseContext, actionTail, sendNotificationWithContext]
          · intro kv hkv
            exact hkv
          · intro e he
            simp at he
            rcases he with rfl | rfl <;> rfl
  · rintro rfl
    rw [(runActionCommand_counts cmd (CtxArg.valid c) retriesOpt false handler
      now).2.2.1]
    exact countNotify_actionTail_disabled cmd _ _ now _
  · rw [(runActionCommand_counts cmd CtxArg.absent retriesOpt enabled handler
      now).2.2.1]
    exact countNotify_actionTail_none cmd _ enabled now _
  · intro hmem
    rw [runActionCommand_eq] at hmem
    simp only [List.mem_append] at hmem
    rcases hmem with (((h | h) | h) | h) | h
    · exact (parseContext_counts CtxArg.absent).2.2.2.2 h
    · simp [parseContext] at h
    · simp at h
    · exact (withRetryGo_no_notify (handlerUow handler cmd.fallbackError)
        (parseRetries retriesOpt).toNat (parseRetries retriesOpt).toNat 1).2.2 h
    · exact (countExec_actionTail cmd (parseRetries retriesOpt).toNat
        (parseContext CtxArg.absent).2 enabled now
        (withRetry (handlerUow handler cmd.fallbackError)
          (parseRetries retriesOpt).toNat).1).2.2 h

/-- Witness for C10: with a valid context and the notifier enabled, a
successful like sends exactly one notification and sets the silent flag
first; with no context and the notifier disabled, nothing is sent. -/
theorem context_notification_flow_witness :
    countNotify (runActionCommand (igLikeCmd "u") (CtxArg.valid [("author", "a")])
        none true (fun _ => { success := true, error := none }) 0) = 1
    ∧ (∃ rest, runActionCommand (igLikeCmd "u") (CtxArg.valid [("author", "a")])
        none true (fun _ => { success := true, error := none }) 0
          = Ev.silentSet :: Ev.clawInit :: rest)
    ∧ countNotify (runActionCommand (igLikeCmd "u") CtxArg.absent none false
        (fun _ => { success := true, error := none }) 0) = 0 :=
  ⟨((context_notification_flow (igLikeCmd "u") [("author", "a")] none true
      (fun _ => { success := true, error := none }) 0).2.1 rfl).1,
   (context_notification_flow (igLikeCmd "u") [("author", "a")] none true
      (fun _ => { success := true, error := none }) 0).1,
   (context_notification_flow (igLikeCmd "u") [("author", "a")] none false
      (fun _ => { success := true, error := none }) 0).2.2.2.1⟩

end ClawSocial
